import Mathlib

/-!
Verification of the AbletonBuddy transport and orchestration engine.

The development shallowly embeds the core of the repository:

* `src/tools/osc/client.py` — the singleton OSC transport (`OSCClient.send_and_wait`,
  `OSCResponse`, the shared response slot);
* `src/agents/disambiguation.py` — the clarification marker check and formatter;
* `src/agents/categories.py` and `src/agents/tasks.py` — the API category enum and
  the work-item builder;
* `src/api.py` — the streaming pipeline `process_agent_pipeline`, its cancellation
  handler, and the stream registry of `stream_message` and `cancel_stream`.

External calls (the marvin language-model steps, the thread store, the wall clock,
the UDP socket) are modelled as oracle inputs: each call either returns a value,
raises a cancellation, or raises an ordinary exception, exactly the three ways an
awaited call can resolve in the Python source.  Python strings are embedded as Lean
`String`; the Python `str.split`, `str.replace` and `str.strip` used by the
clarification formatter are re-implemented as executable structural recursions on
`List Char` with the semantics of the Python builtins.
-/

set_option maxRecDepth 4096

/-! ### Transport: `src/tools/osc/client.py` -/

/-- Scalar payload values carried by OSC replies and arguments. -/
inductive OSCVal where
  | int (n : Int)
  | str (s : String)
  | boolean (b : Bool)
deriving DecidableEq, Repr

/-- Python `repr` of one scalar, as it appears in formatted message strings. -/
def OSCVal.pyRepr : OSCVal → String
  | .int n => toString n
  | .str s => "\'" ++ s ++ "\'"
  | .boolean b => if b then "True" else "False"

/-- Python `repr` of a list of scalars, as f-string interpolation displays it. -/
def pyListRepr (vs : List OSCVal) : String :=
  "[" ++ String.intercalate ", " (vs.map OSCVal.pyRepr) ++ "]"

/-- Return values of `OSCClient.send_and_wait`: a string (sentinel, simulation or
error text), one unwrapped scalar, a list of scalars, or Python `None`. -/
inductive OSCRet where
  | str (s : String)
  | val (v : OSCVal)
  | vals (vs : List OSCVal)
  | none
deriving DecidableEq, Repr

/-- Reply shaping of `client.py` lines 102-110: `data is None` or an empty tuple
give the sentinel `OK`, a singleton is unwrapped, a longer tuple is returned
whole. -/
def shapeData : Option (List OSCVal) → OSCRet
  | Option.none => .str "OK"
  | Option.some [] => .str "OK"
  | Option.some [v] => .val v
  | Option.some (v :: w :: vs) => .vals (v :: w :: vs)

/-- Outcome of the guarded `self.client.send_message` call (lines 90-96): either
the datagram was handed off, or the socket layer raised with a message. -/
inductive SendObs where
  | sent
  | raised (msg : String)
deriving DecidableEq, Repr

/-- Outcome of the busy-poll loop (lines 98-101): either the timeout elapsed with
no reply consumed, or the loop exited with the response slot holding `data`
(which is `None` exactly when a reset raced the handler). -/
inductive WaitObs where
  | timeout
  | got (data : Option (List OSCVal))
deriving DecidableEq, Repr

/-- Shallow embedding of `OSCClient.send_and_wait` (lines 82-111).  `oscAvailable`
is the module flag `OSC_AVAILABLE`, `clientPresent` is `self.client` being set;
the I/O observations `send` and `wait` stand for what the socket and the shared
response slot did during the call.  The `timeout` argument of the source only
determines which `WaitObs` is observed, never the returned value, so it is not a
parameter of the embedding. -/
def send_and_wait (oscAvailable clientPresent : Bool) (address : String)
    (args : Option (List OSCVal)) (send : SendObs) (wait : WaitObs) : OSCRet :=
  if !oscAvailable || !clientPresent then
    .str ("[SIMULATION MODE] Would send OSC: " ++ address ++ " " ++ pyListRepr (args.getD []))
  else
    match send with
    | .raised e => .str ("Error sending OSC message: " ++ e)
    | .sent =>
      match wait with
      | .timeout => .none
      | .got d => shapeData d

/-- The process-wide response slot `OSCResponse` (lines 18-27): one `received`
flag, one payload, one address, and no request-correlation field at all. -/
structure OSCResponse where
  received : Bool := false
  data : Option (List OSCVal) := Option.none
  address : Option String := Option.none
deriving DecidableEq, Repr

/-- `OSCResponse.set` (lines 24-27), run by `_response_handler` for every inbound
`/live/*` datagram: it unconditionally overwrites the slot. -/
def OSCResponse.set (r : OSCResponse) (address : String) (args : List OSCVal) : OSCResponse :=
  { r with address := Option.some address, data := Option.some args, received := true }

/-- The reset a call performs before sending (lines 87-88). -/
def OSCResponse.reset (r : OSCResponse) : OSCResponse :=
  { r with received := false, data := Option.none }

/-- What a waiting call returns if it polls the slot now: `Option.none` while the
flag is down (the loop keeps spinning), otherwise the shaped payload of whoever
wrote the slot last. -/
def pollExit (r : OSCResponse) : Option OSCRet :=
  if r.received then Option.some (shapeData r.data) else Option.none

/-- Atomic actions on the shared slot: a resetting sender or an arriving reply. -/
inductive SlotOp where
  | reset
  | set (address : String) (args : List OSCVal)
deriving DecidableEq, Repr

/-- Run an interleaving of slot operations from a starting slot state. -/
def runSlotOps (r : OSCResponse) : List SlotOp → OSCResponse
  | [] => r
  | SlotOp.reset :: ops => runSlotOps r.reset ops
  | SlotOp.set a vs :: ops => runSlotOps (r.set a vs) ops

/-! ### Disambiguation: `src/agents/disambiguation.py` -/

/-- Python `str.startswith`, embedded as a prefix test on the character list. -/
def pyStartsWith (s p : String) : Bool :=
  p.data.isPrefixOf s.data

/-- `is_ambiguous_input` (lines 71-75). -/
def is_ambiguous_input (user_input : String) : Bool :=
  pyStartsWith user_input "NEED_MORE_CONTEXT:"

/-- Characters Python `str.strip` removes. -/
def pyIsSpace (c : Char) : Bool :=
  c == ' ' || c == '\t' || c == '\n' || c == '\x0b' || c == '\x0c' || c == '\r'

/-- Python `str.strip()`: drop whitespace from both ends. -/
def pyStrip (s : String) : String :=
  String.mk (((s.data.dropWhile pyIsSpace).reverse.dropWhile pyIsSpace).reverse)

/-- Fuel-indexed worker for Python `str.split(sep)`: split at each leftmost
non-overlapping occurrence of `sep`.  The fuel only makes the recursion
structural; it starts above the list length and never runs out. -/
def pySplitGo (sep : List Char) : Nat → List Char → List Char → List (List Char)
  | 0, l, cur => [cur.reverse ++ l]
  | _ + 1, [], cur => [cur.reverse]
  | fuel + 1, c :: rest, cur =>
    if sep.isPrefixOf (c :: rest) then
      cur.reverse :: pySplitGo sep fuel ((c :: rest).drop sep.length) []
    else
      pySplitGo sep fuel rest (c :: cur)

/-- Python `s.split(sep)` for a non-empty separator. -/
def pySplit (s sep : String) : List String :=
  (pySplitGo sep.data (s.data.length + 1) s.data []).map String.mk

/-- Fuel-indexed worker for Python `str.replace(pat, repl)`: replace every
leftmost non-overlapping occurrence. -/
def pyReplaceGo (pat repl : List Char) : Nat → List Char → List Char
  | 0, l => l
  | _ + 1, [] => []
  | fuel + 1, c :: rest =>
    if pat.isPrefixOf (c :: rest) then
      repl ++ pyReplaceGo pat repl fuel ((c :: rest).drop pat.length)
    else
      c :: pyReplaceGo pat repl fuel rest

/-- Python `s.replace(pat, repl)` for a non-empty pattern. -/
def pyReplace (s pat repl : String) : String :=
  String.mk (pyReplaceGo pat.data repl.data (s.data.length + 1) s.data)

/-- `handle_ambiguous_input` (lines 78-99): identity on unmarked input; a marked
input is reformatted into a clarification request, splitting off the echoed
original after `Original:` when present. -/
def handle_ambiguous_input (user_input : String) : String :=
  if !is_ambiguous_input user_input then user_input
  else
    let parts := pySplit user_input "Original:"
    if parts.length > 1 then
      let clarification_request := pyStrip (pyReplace (parts.headD "") "NEED_MORE_CONTEXT:" "")
      let original_input := pyStrip ((parts.drop 1).headD "")
      "I need more information to help you. " ++ clarification_request ++
        "\n\nYour original request: \'" ++ original_input ++ "\'\n\n" ++
        "Please provide more specific details and I\'ll be happy to help!"
    else
      "I need more information to help you. " ++ user_input ++
        "\n\nPlease provide more specific details and I\'ll be happy to help!"

/-! ### Categories and work items: `src/agents/categories.py`, `src/agents/tasks.py` -/

/-- The `APICategory` enum (categories.py lines 8-55), in declaration order. -/
inductive APICategory where
  | APPLICATION
  | SONG
  | VIEW
  | TRACK
  | CLIP_SLOT
  | CLIP
  | SCENE
  | DEVICE
  | DEVICE_LOADER
  | COMPOSITION
deriving DecidableEq, Repr

/-- The `.name` attribute of each enum member. -/
def APICategory.name : APICategory → String
  | .APPLICATION => "APPLICATION"
  | .SONG => "SONG"
  | .VIEW => "VIEW"
  | .TRACK => "TRACK"
  | .CLIP_SLOT => "CLIP_SLOT"
  | .CLIP => "CLIP"
  | .SCENE => "SCENE"
  | .DEVICE => "DEVICE"
  | .DEVICE_LOADER => "DEVICE_LOADER"
  | .COMPOSITION => "COMPOSITION"

/-- Iteration order of the enum, as `[category for category in APICategory]`. -/
def allAPICategories : List APICategory :=
  [.APPLICATION, .SONG, .VIEW, .TRACK, .CLIP_SLOT, .CLIP, .SCENE, .DEVICE,
   .DEVICE_LOADER, .COMPOSITION]

/-- Membership of a category string in the closed set of declared categories. -/
def isDeclaredCategory (c : String) : Bool :=
  (allAPICategories.map APICategory.name).contains c
def get_song_instructions (request : String) : String :=
  "\nYou are an Ableton Live SONG API specialist. Your task is to handle global transport and session state operations.\n\nUser Request: " ++ request ++ "\n\nYour comprehensive capabilities include:\n- Global transport: play/stop/continue, tempo/tap_tempo, metronome control\n- Song position/length: current position, song length, navigation (jump_by, cue points)\n- Time signature: numerator/denominator control\n- Loop control: loop on/off, loop start/length, groove amount\n- Recording: session_record, arrangement_overdub, record_mode, capture_midi\n- Navigation: undo/redo, back_to_arranger, jump operations\n- Track/scene management: create/delete/duplicate tracks/scenes, create_return_track\n- Quantization: clip_trigger_quantization, midi_recording_quantization\n- Punch/nudge: punch_in/out, nudge_down/up\n- Global controls: stop_all_clips, session_record_status\n\nInstructions:\n1. Analyze the user\'s request to determine the specific SONG API operation needed\n2. Use query_ableton() for status queries and control_ableton() for commands\n3. Provide clear feedback about what was accomplished\n4. For tempo changes, ensure you specify the exact BPM value\n5. For playback operations, confirm the current state before making changes\n6. For recording operations, verify session_record_status if relevant\n7. Always verify the operation was successful and report the result\n\nFocus on global session control rather than individual track or clip operations.\n"

def get_track_instructions (request : String) : String :=
  "\nYou are an Ableton Live TRACK API specialist. Your task is to handle per-track control and inspection operations.\n\nUser Request: " ++ request ++ "\n\nYour comprehensive capabilities include:\n- Mix controls: arm/mute/solo, volume, panning, sends (per send level control)\n- Track properties: name, color/color_index\n- Routing: available_input/output_routing_channels/types, input/output_routing_channel/type, current_monitoring_state\n- Track state: can_be_armed, fired_slot_index, playing_slot_index, is_visible\n- Audio/MIDI capabilities: has_audio_input/output, has_midi_input/output\n- Metering: output_meter_left/right/level (real-time audio levels)\n- Group operations: fold_state, is_foldable, is_grouped\n- Device queries: num_devices, devices/name, devices/type, devices/class_name\n- Clip queries (bulk): clips/name/length/color (session view), arrangement_clips/name/length/start_time\n- Clip control: stop_all_clips on a specific track\n\nAvailable tools:\n- query_track(track_id, query_type, [additional_params]) - Query track properties\n- control_track(track_id, command_type, value, [additional_params]) - Set track properties\n- query_track_devices(track_id, query_type) - Query devices on a track\n- query_track_clips(track_id, query_type) - Query all clips on a track\n- stop_track_clips(track_id) - Stop all clips on a track\n\nInstructions:\n1. Track IDs are 0-based (first track = 0)\n2. For queries, use query_track() with appropriate query_type (arm, volume, mute, solo, panning, send, name, color, etc.)\n3. For controls, use control_track() with command_type (set_arm, set_volume, set_mute, set_solo, set_panning, set_send, etc.)\n4. For send operations, provide send_id in additional_params (e.g., send_id=0 for Send A)\n5. Volume is typically 0.0-1.0, panning is -1.0 (left) to 1.0 (right)\n6. Meters return values in dB, typically negative values (0 dB = maximum)\n7. Use query_track_devices() to list devices, then DEVICE API for device parameters\n8. Use query_track_clips() for bulk clip information (all clips on a track at once)\n9. Always verify operations were successful and provide clear feedback\n10. If track number is ambiguous, ask for clarification\n\nFocus on per-track operations. For global track management (create/delete/duplicate tracks), use SONG API instead.\n"

def get_device_instructions (request : String) : String :=
  "\nYou are an Ableton Live DEVICE API specialist. Your task is to handle instrument and effect device control and inspection operations.\n\nUser Request: " ++ request ++ "\n\nYour comprehensive capabilities include:\n- Device identification: name, class_name, type (1=audio_effect, 2=instrument, 4=midi_effect)\n- Parameter queries: num_parameters, bulk parameter queries (names, values, min, max, is_quantized), individual parameter queries (value, value_string)\n- Parameter control: set individual parameter values, set bulk parameter values\n- Human-readable parameter values: value_string returns readable format (e.g., \"2500 Hz\" instead of raw numeric value)\n\nAvailable tools:\n- query_device(track_id, device_id, query_type, [additional_params]) - Query device properties and parameters\n- control_device(track_id, device_id, command_type, value, [additional_params]) - Set device parameter values\n\nInstructions:\n1. Track IDs and device IDs are 0-based (first track = 0, first device = 0)\n2. Parameter IDs are 0-based indices (first parameter = 0)\n3. To discover devices on a track, first use TRACK API: query_track_devices(track_id, query_type) where query_type can be \'num_devices\', \'devices_name\', \'devices_type\', or \'devices_class_name\'\n4. For device queries, use query_device() with query_type:\n   - Basic: \'name\', \'class_name\', \'type\', \'num_parameters\'\n   - Bulk parameters: \'parameters_name\', \'parameters_value\', \'parameters_min\', \'parameters_max\', \'parameters_is_quantized\'\n   - Individual parameter: \'parameter_value\', \'parameter_value_string\' (requires parameter_id in additional_params)\n5. For device controls, use control_device() with command_type:\n   - \'set_parameter_value\' - Set individual parameter (requires parameter_id in additional_params)\n   - \'set_parameters_value\' - Set bulk parameters (provide comma-separated list of values in value parameter)\n6. Device type values: 1 = audio_effect, 2 = instrument, 4 = midi_effect\n7. Use \'parameter_value_string\' to get human-readable parameter values (e.g., \"2500 Hz\" instead of 2500.0)\n8. For bulk parameter operations, values are returned/expected as lists\n9. Always verify operations were successful and provide clear feedback\n10. If track, device, or parameter number is ambiguous, ask for clarification\n\nWorkflow:\n- First, use TRACK API to discover devices: query_track_devices(track_id, \'devices_name\')\n- Then use DEVICE API to query device details: query_device(track_id, device_id, \'num_parameters\')\n- Query parameter names: query_device(track_id, device_id, \'parameters_name\')\n- Query or set parameter values as needed\n\nFocus on device and parameter operations. For track-level operations, use TRACK API instead.\n"

def get_clip_instructions (request : String) : String :=
  "\nYou are an Ableton Live CLIP API specialist. Your task is to handle individual clip control and inspection operations.\n\nUser Request: " ++ request ++ "\n\nYour comprehensive capabilities include:\n- Playback control: fire (launch), stop, duplicate_loop\n- Clip properties: name, color, gain, length, file_path\n- Clip type: is_audio_clip, is_midi_clip\n- Clip state: is_playing, is_recording, playing_position\n- Pitch control: pitch_coarse (semitones), pitch_fine (cents)\n- Loop control: loop_start, loop_end (in beats)\n- Markers: start_marker, end_marker (in beats)\n- Warping: warping mode control\n- MIDI notes: get notes (with optional range), add notes, remove notes (with optional range)\n\nAvailable tools:\n- query_clip(track_id, clip_id, query_type, [additional_params]) - Query clip properties and notes\n- control_clip(track_id, clip_id, command_type, [value], [additional_params]) - Control clip playback, properties, and notes\n\nInstructions:\n1. Track IDs and clip IDs are 0-based (first track = 0, first clip = 0)\n2. To discover clips on a track, first use TRACK API: query_track_clips(track_id, query_type) where query_type can be \'clips_name\', \'clips_length\', \'clips_color\' for session clips\n3. For clip queries, use query_clip() with query_type:\n   - Basic: \'name\', \'color\', \'gain\', \'length\', \'file_path\'\n   - Type: \'is_audio_clip\', \'is_midi_clip\'\n   - State: \'is_playing\', \'is_recording\', \'playing_position\'\n   - Pitch: \'pitch_coarse\', \'pitch_fine\'\n   - Loop: \'loop_start\', \'loop_end\'\n   - Markers: \'start_marker\', \'end_marker\'\n   - Warping: \'warping\'\n   - Notes: \'notes\' (optionally provide range: start_pitch,pitch_span,start_time,time_span in additional_params)\n4. For clip controls, use control_clip() with command_type:\n   - Playback: \'fire\', \'stop\', \'duplicate_loop\' (no value needed)\n   - Setters: \'set_name\', \'set_color\', \'set_gain\', \'set_pitch_coarse\', \'set_pitch_fine\', \'set_loop_start\', \'set_loop_end\', \'set_warping\', \'set_start_marker\', \'set_end_marker\'\n   - Notes: \'add_notes\', \'remove_notes\'\n5. For notes operations:\n   - get_notes: Query notes, optionally with range (start_pitch, pitch_span, start_time, time_span)\n   - add_notes: Add MIDI notes (format: pitch,start_time,duration,velocity,mute for each note, comma-separated)\n   - remove_notes: Remove notes, optionally with range (if no range, removes all notes)\n6. Notes parameters:\n   - pitch: MIDI note index (0-127, C4 = 60)\n   - start_time: Beat position (float, in beats)\n   - duration: Note length (float, in beats)\n   - velocity: MIDI velocity (0-127)\n   - mute: true/false\n7. Loop and marker values are in beats (floating-point)\n8. Clips can be audio or MIDI - notes operations only apply to MIDI clips\n9. Always verify operations were successful and provide clear feedback\n10. If track, clip, or note parameters are ambiguous, ask for clarification\n\nWorkflow:\n- First, use TRACK API to discover clips: query_track_clips(track_id, \'clips_name\')\n- Then use CLIP API to query clip details: query_clip(track_id, clip_id, \'length\')\n- For MIDI clips, query notes: query_clip(track_id, clip_id, \'notes\')\n- Control playback, properties, or notes as needed\n\nFocus on individual clip operations. For track-level clip operations (bulk queries, stop_all_clips), use TRACK API instead.\n"

def get_scene_instructions (request : String) : String :=
  "\nYou are an Ableton Live SCENE API specialist. Your task is to handle scene triggering and property control operations.\n\nUser Request: " ++ request ++ "\n\nYour comprehensive capabilities include:\n- Scene triggering: fire (trigger specific scene), fire_as_selected (trigger scene and select next), fire_selected (trigger currently selected scene)\n- Scene properties: name, color, color_index\n- Scene state: is_empty, is_triggered\n- Tempo control: tempo (BPM value), tempo_enabled (whether scene overrides global tempo)\n- Time signature control: time_signature_numerator, time_signature_denominator, time_signature_enabled (whether scene overrides global time signature)\n\nAvailable tools:\n- query_scene(scene_id, query_type) - Query scene properties and state\n- control_scene(scene_id, command_type, [value]) - Trigger scenes and set scene properties\n\nInstructions:\n1. Scene IDs are 0-based (first scene = 0)\n2. For scene queries, use query_scene() with query_type:\n   - Basic: \'name\', \'color\', \'color_index\'\n   - State: \'is_empty\', \'is_triggered\'\n   - Tempo: \'tempo\', \'tempo_enabled\'\n   - Time signature: \'time_signature_numerator\', \'time_signature_denominator\', \'time_signature_enabled\'\n3. For scene controls, use control_scene() with command_type:\n   - Triggering: \'fire\', \'fire_as_selected\', \'fire_selected\' (no value needed)\n   - Setters: \'set_name\', \'set_color\', \'set_color_index\', \'set_tempo\', \'set_tempo_enabled\', \'set_time_signature_numerator\', \'set_time_signature_denominator\', \'set_time_signature_enabled\'\n4. Note: \'fire_selected\' uses the currently selected scene (doesn\'t require scene_id in OSC, but we accept it for API consistency)\n5. Tempo and time signature have enable flags - when enabled, the scene overrides the global tempo/signature when fired\n6. Scenes trigger all clips in a row simultaneously when fired\n7. Always verify operations were successful and provide clear feedback\n8. If scene number is ambiguous, ask for clarification\n\nWorkflow:\n- To discover scenes, use SONG API: query_ableton(\'num_scenes\')\n- Then use SCENE API to query scene details: query_scene(scene_id, \'name\')\n- Trigger scenes or set properties as needed\n\nImportant distinctions:\n- Scene creation/deletion/duplication: Use SONG API (create_scene, delete_scene, duplicate_scene)\n- Scene triggering and properties: Use SCENE API (fire, query_scene, control_scene)\n\nFocus on scene triggering and property operations. For scene management (create/delete/duplicate), use SONG API instead.\n"

/-- `_get_task_instructions` (tasks.py lines 81-98): string-keyed dispatch to the
five implemented templates; every other category string raises
`NotImplementedError`, embedded as `Except.error` with the raised message. -/
def get_task_instructions (category request : String) : Except String String :=
  if category == APICategory.SONG.name then .ok (get_song_instructions request)
  else if category == APICategory.TRACK.name then .ok (get_track_instructions request)
  else if category == APICategory.DEVICE.name then .ok (get_device_instructions request)
  else if category == APICategory.CLIP.name then .ok (get_clip_instructions request)
  else if category == APICategory.SCENE.name then .ok (get_scene_instructions request)
  else .error ("Instructions for category " ++ category ++ " not yet implemented")

/-- `_get_category_tools` (tasks.py lines 57-78); tools are identified by their
function names, and an unmatched category yields the empty tool list. -/
def get_category_tools (category : String) : List String :=
  if category == APICategory.SONG.name then
    ["query_ableton", "control_ableton", "test_connection"]
  else if category == APICategory.TRACK.name then
    ["query_track", "control_track", "query_track_devices", "query_track_clips",
     "stop_track_clips"]
  else if category == APICategory.DEVICE.name then
    ["query_device", "control_device"]
  else if category == APICategory.CLIP.name then
    ["query_clip", "control_clip"]
  else if category == APICategory.SCENE.name then
    ["query_scene", "control_scene"]
  else []

deriving instance DecidableEq for Except

/-- A built work item: `marvin.Task(name=..., instructions=..., tools=...)` as
constructed by `create_and_execute_tasks`. -/
structure PTask where
  name : String
  instructions : String
  tools : List String
deriving DecidableEq, Repr

/-- Inner loop of `create_and_execute_tasks` over the requests of one category. -/
def buildTasksFor (category : String) : List String → Except String (List PTask)
  | [] => .ok []
  | request :: rest => do
    let instructions ← get_task_instructions category request
    let tools := get_category_tools category
    let ts ← buildTasksFor category rest
    .ok ({ name := category ++ " Task", instructions := instructions, tools := tools } :: ts)

/-- `create_and_execute_tasks` (tasks.py lines 25-54): one `Task` per
(category, request) pair in insertion order; the first unimplemented category
with a request aborts the build with the raised message. -/
def create_and_execute_tasks : List (String × List String) → Except String (List PTask)
  | [] => .ok []
  | (category, requests) :: rest => do
    let ts ← buildTasksFor category requests
    let more ← create_and_execute_tasks rest
    .ok (ts ++ more)

/-! ### Pipeline: `src/api.py` -/

/-- Python `repr` of a string, as f-string interpolation of containers shows it. -/
def pyStrRepr (s : String) : String := "\'" ++ s ++ "\'"

/-- Python `repr` of a list of strings. -/
def pyStrListRepr (l : List String) : String :=
  "[" ++ String.intercalate ", " (l.map pyStrRepr) ++ "]"

/-- Python `repr` of a `Dict[str, List[str]]` in insertion order. -/
def pyDictRepr (d : List (String × List String)) : String :=
  "\x7b" ++ String.intercalate ", " (d.map fun p => pyStrRepr p.1 ++ ": " ++ pyStrListRepr p.2) ++ "\x7d"

/-- One SSE pipeline event: the `{"event": ..., "data": ...}` pairs put on the
event queue. -/
structure Event where
  kind : String
  data : String
deriving DecidableEq, Repr

/-- One transcript entry: a `UserMessage` or `AgentMessage` appended to the
thread. -/
structure Entry where
  role : String
  content : String
deriving DecidableEq, Repr

/-- Resolution of one awaited external call: a value, an `asyncio.CancelledError`
delivered at the suspension point, or an ordinary exception with its message. -/
inductive ExtResult (α : Type) where
  | ok (a : α)
  | cancel
  | raised (msg : String)
deriving DecidableEq, Repr

/-- Modelled from the spec: the external Work Item runner (`marvin.Task`, not part
of this repository) drives `run()` to exactly one terminal outcome of
`{complete, skipped, failed}`, surfaced in the source as the mutually exclusive
flags `is_complete` / `is_skipped` / `is_failed`. -/
inductive TaskState where
  | complete
  | skipped
  | failed
deriving DecidableEq, Repr

/-- Modelled from the spec: the display name of the terminal state
(`task.state.value` in the source). -/
def TaskState.value : TaskState → String
  | .complete => "complete"
  | .skipped => "skipped"
  | .failed => "failed"

/-- Observed result of running one work item: its id, its result text and its
terminal state, read back from the task object after `run_async()` returns. -/
structure TaskRun where
  id : String
  result : String
  state : TaskState
deriving DecidableEq, Repr

/-- Display of a task tool list (`f"{task.tools}"`), abstracted to the tool
function names. -/
def toolsRepr (tools : List String) : String :=
  "[" ++ String.intercalate ", " tools ++ "]"

/-- The joined tool names `", ".join([tool.__name__ for tool in task.tools])`. -/
def joinToolNames (tools : List String) : String :=
  String.intercalate ", " tools

/-- Oracle for one pipeline run: the resolution of every awaited external call of
`process_agent_pipeline`, in the order the stages make them.  `runs k` resolves
the `k`-th (0-based) task execution; `messageCount` is the display message count
the thread store reports; `handlerThreadOk` is whether the cancellation handler
can re-open the thread (its inner `try` succeeding). -/
structure Oracle where
  disamb : ExtResult String
  classify : ExtResult (List String)
  extract : ExtResult (List (String × List String))
  runs : Nat → ExtResult TaskRun
  summarize : ExtResult String
  messageCount : Nat
  titleGen : ExtResult String
  handlerThreadOk : Bool

/-- How the `try` body of `process_agent_pipeline` ends: normal return, an
`asyncio.CancelledError`, or an ordinary exception carrying a message. -/
inductive BodyExit where
  | normal
  | cancelledB
  | raisedB (msg : String)
deriving DecidableEq, Repr

/-- The one-shot title generation block (api.py lines 379-387, 509-517, 548-556):
on `message_count == 2` it attempts title generation, emitting a `title` event on
success, swallowing an ordinary exception, and letting a cancellation escape
(the second component flags that escape). -/
def titleStep (messageCount : Nat) (titleGen : ExtResult String) : List Event × Bool :=
  if messageCount == 2 then
    match titleGen with
    | .ok t => ([⟨"title", t⟩], false)
    | .raised _ => ([], false)
    | .cancel => ([], true)
  else ([], false)

/-- The per-item `status` event of the execution loop (api.py lines 431-435). -/
def taskStatusEvent (n k : Nat) (t : PTask) : Event :=
  ⟨"status", "Running task " ++ toString (k + 1) ++ "/" ++ toString n ++ ": " ++
    t.name ++ " " ++ toolsRepr t.tools⟩

/-- The per-item status transcript entry (api.py lines 437-443). -/
def taskStatusEntry (n k : Nat) (t : PTask) : Entry :=
  ⟨"agent", "Status: Running task " ++ toString (k + 1) ++ "/" ++ toString n ++ ": " ++
    t.name ++ " " ++ toolsRepr t.tools ++ "..."⟩

/-- The single outcome event emitted after `run_async()` returns (api.py lines
446-487), keyed by the terminal state and carrying name, result and tool names. -/
def taskOutcomeEvent (t : PTask) (r : TaskRun) : Event :=
  match r.state with
  | .complete =>
    ⟨"task_success", "Task Successful: " ++ t.name ++ " " ++ r.result ++ " " ++ joinToolNames t.tools⟩
  | .skipped =>
    ⟨"task_skipped", "Task Skipped: " ++ t.name ++ " " ++ r.result ++ " " ++ joinToolNames t.tools⟩
  | .failed =>
    ⟨"task_failed", "Task Failed: " ++ t.name ++ " " ++ r.result ++ " " ++ joinToolNames t.tools⟩

/-- The transcript entry persisted alongside the outcome event. -/
def taskOutcomeEntry (t : PTask) (r : TaskRun) : Entry :=
  match r.state with
  | .complete =>
    ⟨"agent", "Task Successful:\n-" ++ r.id ++ "\n-" ++ t.name ++ "\n-" ++ r.result ++ "\n-" ++
      toolsRepr t.tools ++ "\n-" ++ r.state.value⟩
  | .skipped =>
    ⟨"agent", "Task Skipped:\n-" ++ r.id ++ "\n-" ++ t.name ++ "\n-" ++ r.result ++ "\n-" ++
      toolsRepr t.tools ++ "\n-" ++ r.state.value⟩
  | .failed =>
    ⟨"agent", "Task Failed:\n-" ++ r.id ++ "\n-" ++ t.name ++ "\n-" ++ r.result ++ "\n-" ++
      toolsRepr t.tools ++ "\n-" ++ r.state.value⟩

/-- The sequential work-execution loop (api.py lines 430-487): `n` is the total
task count shown in status texts, `k` the 0-based position of the current head.
Each iteration emits the status event and entry, awaits the run, and on a
terminal state emits exactly one outcome event and entry before the next item. -/
def execTasks (n : Nat) (runs : Nat → ExtResult TaskRun) :
    List PTask → Nat → List Event × List Entry × BodyExit
  | [], _ => ([], [], .normal)
  | t :: ts, k =>
    match runs k with
    | .cancel => ([taskStatusEvent n k t], [taskStatusEntry n k t], .cancelledB)
    | .raised m => ([taskStatusEvent n k t], [taskStatusEntry n k t], .raisedB m)
    | .ok r =>
      let tail := execTasks n runs ts (k + 1)
      (taskStatusEvent n k t :: taskOutcomeEvent t r :: tail.1,
       taskStatusEntry n k t :: taskOutcomeEntry t r :: tail.2.1,
       tail.2.2)

/-- The clarification short-circuit (api.py lines 364-391), entered when the
disambiguated input carries the marker: persist the formatted clarification,
update metadata, optionally generate a title, then emit `assistant` and `done`
and return. -/
def ambiguousBranch (d : String) (o : Oracle) : List Event × List Entry × BodyExit :=
  let clar := handle_ambiguous_input d
  let title := titleStep o.messageCount o.titleGen
  if title.2 then
    ([], [⟨"agent", clar⟩], .cancelledB)
  else
    (title.1 ++ [⟨"assistant", clar⟩, ⟨"done", "Need clarification"⟩],
     [⟨"agent", clar⟩], .normal)

/-- The classification / extraction / build / execute / summarize stages
(api.py lines 392-519), entered when the input is not ambiguous. -/
def mainBranch (o : Oracle) : List Event × List Entry × BodyExit :=
  let ev0 : List Event := [⟨"status", "Input is not ambiguous"⟩, ⟨"status", "Identifying operations..."⟩]
  let en0 : List Entry := [⟨"agent", "Status: Identifying operations..."⟩]
  match o.classify with
  | .cancel => (ev0, en0, .cancelledB)
  | .raised m => (ev0, en0, .raisedB m)
  | .ok cats =>
    let ev1 := ev0 ++ [⟨"classification", "Classification: " ++ pyStrListRepr cats⟩,
                       ⟨"status", "Extracting operations..."⟩]
    let en1 := en0 ++ [⟨"agent", "Classification Agent: " ++ pyStrListRepr cats⟩,
                       ⟨"agent", "Status: Extracting operations..."⟩]
    match o.extract with
    | .cancel => (ev1, en1, .cancelledB)
    | .raised m => (ev1, en1, .raisedB m)
    | .ok reqs =>
      let ev2 := ev1 ++ [⟨"extraction", "Extraction: " ++ pyDictRepr reqs⟩,
                         ⟨"status", "Creating tasks..."⟩]
      let en2 := en1 ++ [⟨"agent", "Extraction Agent: " ++ pyDictRepr reqs⟩,
                         ⟨"agent", "Status: Creating tasks..."⟩]
      match create_and_execute_tasks reqs with
      | .error m => (ev2, en2, .raisedB m)
      | .ok tasks =>
        let n := tasks.length
        let ev3 := ev2 ++ [⟨"status", "Executing " ++ toString n ++ " task(s)..."⟩]
        let en3 := en2 ++ [⟨"agent", "Status: Executing " ++ toString n ++ " task(s)..."⟩]
        let loop := execTasks n o.runs tasks 0
        match loop.2.2 with
        | .cancelledB => (ev3 ++ loop.1, en3 ++ loop.2.1, .cancelledB)
        | .raisedB m => (ev3 ++ loop.1, en3 ++ loop.2.1, .raisedB m)
        | .normal =>
          let ev4 := ev3 ++ loop.1 ++ [⟨"status", "Preparing response..."⟩]
          let en4 := en3 ++ loop.2.1 ++ [⟨"agent", "Status: Preparing response..."⟩]
          match o.summarize with
          | .cancel => (ev4, en4, .cancelledB)
          | .raised m => (ev4, en4, .raisedB m)
          | .ok s =>
            let en5 := en4 ++ [⟨"agent", "Summarization Agent: " ++ s⟩]
            let ev5 := ev4 ++ [⟨"assistant", s⟩]
            let title := titleStep o.messageCount o.titleGen
            if title.2 then (ev5, en5, .cancelledB)
            else (ev5 ++ title.1 ++ [⟨"done", "Complete"⟩], en5, .normal)

/-- The whole `try` body of `process_agent_pipeline` (api.py lines 335-519):
ingestion, disambiguation, then either the clarification short-circuit or the
main stages. -/
def pipelineBody (userInput : String) (o : Oracle) : List Event × List Entry × BodyExit :=
  let ev0 : List Event := [⟨"status", "Processing your request..."⟩,
                           ⟨"status", "Understanding your command..."⟩]
  let en0 : List Entry := [⟨"user", userInput⟩,
                           ⟨"agent", "Status: Processing your request..."⟩,
                           ⟨"agent", "Status: Understanding your command..."⟩]
  match o.disamb with
  | .cancel => (ev0, en0, .cancelledB)
  | .raised m => (ev0, en0, .raisedB m)
  | .ok d =>
    let ev1 := ev0 ++ [⟨"disambiguation", "Disambiguated input: " ++ d⟩]
    let en1 := en0 ++ [⟨"agent", "Disambiguation Agent: " ++ d⟩]
    let branch := if is_ambiguous_input d then ambiguousBranch d o else mainBranch o
    (ev1 ++ branch.1, en1 ++ branch.2.1, branch.2.2)

/-- Events and entries produced by the `except asyncio.CancelledError` handler
(api.py lines 521-559): append the stopped-by-user entry, emit `assistant`,
`cancelled`, `done`, then the metadata update with its optional `title` event;
any ordinary exception inside is swallowed, and a handler that cannot re-open
the thread produces nothing. -/
def cancelHandler (o : Oracle) : List Event × List Entry :=
  if o.handlerThreadOk then
    ([⟨"assistant", "Generation stopped by user"⟩,
      ⟨"cancelled", "Generation stopped by user"⟩,
      ⟨"done", "Cancelled"⟩] ++ (titleStep o.messageCount o.titleGen).1,
     [⟨"agent", "Summarization Agent: Generation stopped by user"⟩])
  else ([], [])

/-- Terminal condition of one pipeline run: returned normally, ended by the
top-level `except Exception` reporter, or re-raised a cancellation. -/
inductive Outcome where
  | finished
  | errored
  | cancelledOut
deriving DecidableEq, Repr

/-- Everything one run of `process_agent_pipeline` leaves behind: the event
sequence put on the queue, the transcript entries appended to the thread, and
how the coroutine ended. -/
structure RunOut where
  events : List Event
  entries : List Entry
  outcome : Outcome
deriving Repr

/-- `process_agent_pipeline` (api.py lines 328-561): the `try` body wrapped by
the cancellation handler and the top-level single `error` reporter. -/
def runPipeline (userInput : String) (o : Oracle) : RunOut :=
  match pipelineBody userInput o with
  | (evs, ens, .normal) => ⟨evs, ens, .finished⟩
  | (evs, ens, .raisedB m) => ⟨evs ++ [⟨"error", m⟩], ens, .errored⟩
  | (evs, ens, .cancelledB) =>
    let handler := cancelHandler o
    ⟨evs ++ handler.1, ens ++ handler.2, .cancelledOut⟩

/-- Number of events of a given kind in a trace. -/
def countKind (k : String) (evs : List Event) : Nat :=
  evs.countP (fun e => e.kind == k)

/-- The consumer loop of `stream_message` (api.py lines 596-612): forward events
until the first terminal `done` / `cancelled` / `error` event, inclusive. -/
def takeUntilTerminal : List Event → List Event
  | [] => []
  | e :: es =>
    if e.kind == "done" || e.kind == "cancelled" || e.kind == "error" then [e]
    else e :: takeUntilTerminal es

/-- One streamed turn of `stream_message` (api.py lines 564-629) over the stream
registry `active_streams`, modelled as the set of registered thread ids:
register the turn, run the pipeline, forward events until the terminal one, and
in the `finally` block delete the registry entry. -/
def streamTurn (threadId : String) (registry : List String) (userInput : String)
    (o : Oracle) : List Event × List String :=
  let registered := if threadId ∈ registry then registry else threadId :: registry
  let out := runPipeline userInput o
  (takeUntilTerminal out.events, registered.erase threadId)


/-! ### Spec-side definitions and concrete fixtures -/

/-- The five categories for which `_get_task_instructions` has a template. -/
def isImplementedCategory (c : String) : Bool :=
  c == APICategory.SONG.name || c == APICategory.TRACK.name ||
  c == APICategory.DEVICE.name || c == APICategory.CLIP.name ||
  c == APICategory.SCENE.name

/-- Spec-side description of the work-item build (one item per (category, span)
pair, bound to the category template and tool set), to be compared with
`create_and_execute_tasks`. -/
def specWorkItems (reqs : List (String × List String)) : List PTask :=
  reqs.flatMap fun p => p.2.map fun r =>
    { name := p.1 ++ " Task",
      instructions := (get_task_instructions p.1 r).toOption.getD "",
      tools := get_category_tools p.1 }

/-- Default task-run oracle: every item completes. -/
def defaultRuns : Nat → ExtResult TaskRun :=
  fun _ => .ok { id := "task-0", result := "ok", state := .complete }

/-- Fixture oracle for a clarification turn. -/
def oracleClarify : Oracle :=
  { disamb := .ok "NEED_MORE_CONTEXT: Which track should be muted? Original: mute track",
    classify := .ok [],
    extract := .ok [],
    runs := defaultRuns,
    summarize := .ok "done",
    messageCount := 2,
    titleGen := .ok "Muting a track",
    handlerThreadOk := true }

/-- Fixture oracle for a turn cancelled at the disambiguation await. -/
def oracleCancelled : Oracle :=
  { disamb := .cancel,
    classify := .ok [],
    extract := .ok [],
    runs := defaultRuns,
    summarize := .ok "done",
    messageCount := 3,
    titleGen := .ok "title",
    handlerThreadOk := true }

/-- Fixture oracle for a turn whose disambiguation stage raises. -/
def oracleErrored : Oracle :=
  { disamb := .raised "LLM backend unreachable",
    classify := .ok [],
    extract := .ok [],
    runs := defaultRuns,
    summarize := .ok "done",
    messageCount := 3,
    titleGen := .ok "title",
    handlerThreadOk := true }

/-! ### Helper lemmas -/

/-- The clarification marker is never a prefix of a formatter output, whose fixed
head differs from the marker at the first character. -/
theorem marker_not_prefix_data (l : List Char) :
    ("NEED_MORE_CONTEXT:" : String).data.isPrefixOf
      (("I need more information to help you. " : String).data ++ l) = false := by
  rw [show ("NEED_MORE_CONTEXT:" : String).data = 'N' :: ("EED_MORE_CONTEXT:" : String).data from rfl,
      show ("I need more information to help you. " : String).data
        = 'I' :: (" need more information to help you. " : String).data from rfl]
  simp [List.isPrefixOf]

/-! ### Claim theorems -/

/-- C1: in live mode, when `send_and_wait` consumes a reply before the timeout,
a zero-value payload returns the sentinel `OK`, a single value is returned
unwrapped, and two or more values are returned as the whole list. -/
theorem send_and_wait_reply_shaping (address : String) (args : Option (List OSCVal))
    (data : List OSCVal) :
    (data = [] →
      send_and_wait true true address args .sent (.got (Option.some data)) = .str "OK") ∧
    (∀ v, data = [v] →
      send_and_wait true true address args .sent (.got (Option.some data)) = .val v) ∧
    (2 ≤ data.length →
      send_and_wait true true address args .sent (.got (Option.some data)) = .vals data) := by
  refine ⟨fun h => by simp [send_and_wait, h, shapeData], fun v h => by simp [send_and_wait, h, shapeData], fun h => ?_⟩
  match data, h with
  | v :: w :: vs, _ => simp [send_and_wait, shapeData]

theorem send_and_wait_reply_shaping_witness :
    send_and_wait true true "/live/song/get/tempo" (Option.some [OSCVal.int 1]) .sent
        (.got (Option.some [])) = .str "OK" ∧
    send_and_wait true true "/live/song/get/tempo" (Option.some [OSCVal.int 1]) .sent
        (.got (Option.some [OSCVal.int 120])) = .val (OSCVal.int 120) ∧
    send_and_wait true true "/live/song/get/tempo" (Option.some [OSCVal.int 1]) .sent
        (.got (Option.some [OSCVal.int 4, OSCVal.int 4])) = .vals [OSCVal.int 4, OSCVal.int 4] :=
  ⟨(send_and_wait_reply_shaping _ _ []).1 rfl,
   (send_and_wait_reply_shaping _ _ [OSCVal.int 120]).2.1 _ rfl,
   (send_and_wait_reply_shaping _ _ [OSCVal.int 4, OSCVal.int 4]).2.2 (by decide)⟩

/-- C2: the live-mode transport call never raises past itself — the embedding is
a total function — and its two fault channels are values: a send failure
returns the descriptive error string, and a reply-less timeout returns `None`
(`OSCRet.none`), not an error. -/
theorem send_and_wait_faults_are_values (address : String) (args : Option (List OSCVal)) :
    (∀ e wait, send_and_wait true true address args (.raised e) wait =
      .str ("Error sending OSC message: " ++ e)) ∧
    send_and_wait true true address args .sent .timeout = OSCRet.none := by
  exact ⟨fun e wait => by simp [send_and_wait], by simp [send_and_wait]⟩

/-- C8: with the live channel disabled, `send_and_wait` returns the simulation
placeholder built only from the address and arguments — for every argument
shape, independent of every I/O observation (hence deterministic, with no I/O)
— and, being total, never raises. -/
theorem send_and_wait_simulation (clientPresent : Bool) (address : String)
    (args : Option (List OSCVal)) (send : SendObs) (wait : WaitObs) :
    send_and_wait false clientPresent address args send wait =
      .str ("[SIMULATION MODE] Would send OSC: " ++ address ++ " " ++
        pyListRepr (args.getD [])) := by
  simp [send_and_wait]

/-- C9: the shared response slot has no per-request correlation.  In the
interleaving where call A resets the slot, call B resets it again, and B-bound
reply arrives, A polling the slot exits its wait and returns the payload of the
last reply written — B's — whatever the slot held before. -/
theorem response_slot_last_reply_wins (r : OSCResponse) (addrB : String)
    (argsB : List OSCVal) (addrA : String) (argsA : Option (List OSCVal)) :
    pollExit (runSlotOps r [SlotOp.reset, SlotOp.reset, SlotOp.set addrB argsB]) =
      Option.some (shapeData (Option.some argsB)) ∧
    send_and_wait true true addrA argsA .sent (.got (Option.some argsB)) =
      shapeData (Option.some argsB) := by
  constructor
  · simp [runSlotOps, OSCResponse.reset, OSCResponse.set, pollExit]
  · simp [send_and_wait]

/-- Identity branch of the formatter: an unmarked input is returned unchanged. -/
theorem handle_ambiguous_input_unmarked (x : String) (hx : is_ambiguous_input x = false) :
    handle_ambiguous_input x = x := by
  unfold handle_ambiguous_input
  rw [hx]
  simp

/-- Output of the formatter is never marked. -/
theorem handle_ambiguous_input_output_unmarked (s : String) :
    is_ambiguous_input (handle_ambiguous_input s) = false := by
  by_cases h : is_ambiguous_input s
  · rw [handle_ambiguous_input]
    simp only [h, Bool.not_true, Bool.false_eq_true, if_false]
    by_cases h2 : (pySplit s "Original:").length > 1
    · simp only [h2, if_true]
      rw [is_ambiguous_input, pyStartsWith]
      simp only [String.data_append, List.append_assoc]
      exact marker_not_prefix_data _
    · simp only [h2, if_false]
      rw [is_ambiguous_input, pyStartsWith]
      simp only [String.data_append, List.append_assoc]
      exact marker_not_prefix_data _
  · rw [handle_ambiguous_input_unmarked s (by simpa using h)]
    simpa using h

/-- C10: `handle_ambiguous_input` is the identity on every unmarked string, its
output is never marked, and it is idempotent on every string. -/
theorem handle_ambiguous_input_idempotent (s : String) :
    (is_ambiguous_input s = false → handle_ambiguous_input s = s) ∧
    is_ambiguous_input (handle_ambiguous_input s) = false ∧
    handle_ambiguous_input (handle_ambiguous_input s) = handle_ambiguous_input s :=
  ⟨fun hs => handle_ambiguous_input_unmarked s hs,
   handle_ambiguous_input_output_unmarked s,
   handle_ambiguous_input_unmarked _ (handle_ambiguous_input_output_unmarked s)⟩

theorem handle_ambiguous_input_idempotent_witness :
    is_ambiguous_input "mute track 2" = false ∧
    handle_ambiguous_input "mute track 2" = "mute track 2" :=
  ⟨by decide, (handle_ambiguous_input_idempotent "mute track 2").1 (by decide)⟩

/-- Implemented categories dispatch to a template. -/
theorem get_task_instructions_of_implemented (c r : String)
    (h : isImplementedCategory c = true) :
    get_task_instructions c r = .ok ((get_task_instructions c r).toOption.getD "") := by
  unfold isImplementedCategory at h
  unfold get_task_instructions
  by_cases h1 : c == APICategory.SONG.name <;> by_cases h2 : c == APICategory.TRACK.name <;>
    by_cases h3 : c == APICategory.DEVICE.name <;> by_cases h4 : c == APICategory.CLIP.name <;>
    by_cases h5 : c == APICategory.SCENE.name <;>
      simp_all [Except.toOption]

/-- Unimplemented categories raise from the template dispatch. -/
theorem get_task_instructions_of_unimplemented (c r : String)
    (h : isImplementedCategory c = false) :
    get_task_instructions c r =
      .error ("Instructions for category " ++ c ++ " not yet implemented") := by
  unfold isImplementedCategory at h
  simp only [Bool.or_eq_false_iff] at h
  unfold get_task_instructions
  simp [h.1.1.1.1, h.1.1.1.2, h.1.1.2, h.1.2, h.2]

/-- The inner request loop builds one task per request for an implemented
category. -/
theorem buildTasksFor_implemented (c : String) (h : isImplementedCategory c = true) :
    ∀ rs : List String, buildTasksFor c rs =
      .ok (rs.map fun r =>
        { name := c ++ " Task",
          instructions := (get_task_instructions c r).toOption.getD "",
          tools := get_category_tools c })
  | [] => by simp [buildTasksFor]
  | r :: rest => by
    rw [buildTasksFor, get_task_instructions_of_implemented c r h,
      buildTasksFor_implemented c h rest]
    rfl

/-- C5 counterexample: `APPLICATION` belongs to the closed set of declared API
categories, yet building work for it raises `NotImplementedError` instead of
constructing a work item. -/
theorem create_tasks_declared_category_raises :
    isDeclaredCategory "APPLICATION" = true ∧
    create_and_execute_tasks [("APPLICATION", ["test the connection"])] =
      .error "Instructions for category APPLICATION not yet implemented" := by
  constructor
  · decide
  · rw [create_and_execute_tasks, buildTasksFor,
      get_task_instructions_of_unimplemented _ _ (by decide)]
    rfl

/-- C5 (amended): for every (category, span) pair whose category is one of the
five implemented ones (SONG, TRACK, DEVICE, CLIP, SCENE) exactly one work item
is built, bound to that category's template and tool set; every other category
string — including the five declared but unimplemented members — raises as soon
as it has a span. -/
theorem create_and_execute_tasks_amended :
    (∀ reqs : List (String × List String),
      (∀ p ∈ reqs, isImplementedCategory p.1 = true) →
      create_and_execute_tasks reqs = .ok (specWorkItems reqs)) ∧
    (∀ (c r : String) (rs : List String) (rest : List (String × List String)),
      isImplementedCategory c = false →
      create_and_execute_tasks ((c, r :: rs) :: rest) =
        .error ("Instructions for category " ++ c ++ " not yet implemented")) := by
  constructor
  · intro reqs h
    induction reqs with
    | nil => simp [create_and_execute_tasks, specWorkItems]
    | cons p rest ih =>
      obtain ⟨c, rs⟩ := p
      rw [create_and_execute_tasks, buildTasksFor_implemented c (h (c, rs) (by simp)) rs,
        ih (fun q hq => h q (by simp [hq]))]
      simp [specWorkItems, Bind.bind, Except.bind]
  · intro c r rs rest h
    rw [create_and_execute_tasks, buildTasksFor,
      get_task_instructions_of_unimplemented c r h]
    rfl

theorem create_and_execute_tasks_amended_witness :
    create_and_execute_tasks [("SONG", ["set the tempo to 120"])] =
      .ok (specWorkItems [("SONG", ["set the tempo to 120"])]) ∧
    create_and_execute_tasks [("VIEW", ["select track 1"])] =
      .error ("Instructions for category " ++ "VIEW" ++ " not yet implemented") :=
  ⟨create_and_execute_tasks_amended.1 _ (by decide),
   create_and_execute_tasks_amended.2 "VIEW" "select track 1" [] [] (by decide)⟩

/-- Unrolled form of the execution loop when every run resolves to a terminal
state: one status block then one outcome block per item, in build order. -/
theorem execTasks_all_ok (n : Nat) (runs : Nat → TaskRun) :
    ∀ (ts : List PTask) (k : Nat),
      execTasks n (fun i => .ok (runs i)) ts k =
        ((ts.enumFrom k).flatMap fun p =>
           [taskStatusEvent n p.1 p.2, taskOutcomeEvent p.2 (runs p.1)],
         (ts.enumFrom k).flatMap fun p =>
           [taskStatusEntry n p.1 p.2, taskOutcomeEntry p.2 (runs p.1)],
         BodyExit.normal)
  | [], k => by simp [execTasks]
  | t :: ts, k => by
    simp [execTasks, execTasks_all_ok n runs ts (k + 1), List.enumFrom]

/-- C3: with every run resolving to a terminal state, the work-execution stage
processes the built items strictly sequentially in build order — for the `k`-th
item a `status` event naming it, then exactly one outcome event whose kind is
one of `task_success` / `task_skipped` / `task_failed` (carrying name, result
and tool names), and the matching transcript entry, before the next item is
touched. -/
theorem pipeline_tasks_sequential (tasks : List PTask) (runs : Nat → TaskRun) :
    execTasks tasks.length (fun i => .ok (runs i)) tasks 0 =
      (tasks.enum.flatMap fun p =>
         [taskStatusEvent tasks.length p.1 p.2, taskOutcomeEvent p.2 (runs p.1)],
       tasks.enum.flatMap fun p =>
         [taskStatusEntry tasks.length p.1 p.2, taskOutcomeEntry p.2 (runs p.1)],
       BodyExit.normal) ∧
    ∀ (t : PTask) (r : TaskRun),
      (taskOutcomeEvent t r).kind = "task_success" ∨
      (taskOutcomeEvent t r).kind = "task_skipped" ∨
      (taskOutcomeEvent t r).kind = "task_failed" := by
  constructor
  · exact execTasks_all_ok tasks.length runs tasks 0
  · intro t r
    cases hr : r.state <;> simp [taskOutcomeEvent, hr]

/-- The optional title block only ever emits `title` events. -/
theorem titleStep_count (mc : Nat) (tg : ExtResult String) (k : String)
    (h : ("title" == k) = false) :
    countKind k (titleStep mc tg).1 = 0 := by
  unfold titleStep countKind
  by_cases h2 : mc == 2
  · cases tg <;> simp [h2, h]
  · simp [h2]

/-- The execution loop only ever emits `status` and `task_*` events. -/
theorem execTasks_count (n : Nat) (runs : Nat → ExtResult TaskRun) (k : String)
    (h1 : ("status" == k) = false) (h2 : ("task_success" == k) = false)
    (h3 : ("task_skipped" == k) = false) (h4 : ("task_failed" == k) = false) :
    ∀ (ts : List PTask) (i : Nat), countKind k (execTasks n runs ts i).1 = 0
  | [], i => by simp [execTasks, countKind]
  | t :: ts, i => by
    have ih := execTasks_count n runs k h1 h2 h3 h4 ts (i + 1)
    unfold execTasks
    cases hr : runs i with
    | cancel => simp [countKind, taskStatusEvent, h1]
    | raised m => simp [countKind, taskStatusEvent, h1]
    | ok r =>
      cases hs : r.state <;>
        simpa [countKind, taskStatusEvent, taskOutcomeEvent, hs, h1, h2, h3, h4] using ih

/-- Kind-exclusion count for the main stages: events of a kind the main branch
never emits do not occur, whatever the oracle resolves. -/
theorem mainBranch_count_excl (o : Oracle) (k : String)
    (hstatus : ("status" == k) = false)
    (hclass : ("classification" == k) = false)
    (hextr : ("extraction" == k) = false)
    (hts : ("task_success" == k) = false)
    (htk : ("task_skipped" == k) = false)
    (htf : ("task_failed" == k) = false)
    (hasst : ("assistant" == k) = false)
    (htitle : ("title" == k) = false)
    (hdone : ("done" == k) = false) :
    countKind k (mainBranch o).1 = 0 := by
  unfold mainBranch
  cases hcl : o.classify with
  | cancel => simp [countKind, hstatus]
  | raised m => simp [countKind, hstatus]
  | ok cats =>
    cases hex : o.extract with
    | cancel => simp [countKind, hstatus, hclass]
    | raised m => simp [countKind, hstatus, hclass]
    | ok reqs =>
      cases htasks : create_and_execute_tasks reqs with
      | error m => simp [htasks, countKind, hstatus, hclass, hextr]
      | ok tasks =>
        have hexec := execTasks_count tasks.length o.runs k hstatus hts htk htf tasks 0
        rcases hloop : execTasks tasks.length o.runs tasks 0 with ⟨levs, lens, lexit⟩
        rw [hloop] at hexec
        simp only [countKind] at hexec
        cases lexit with
        | cancelledB =>
          simp [htasks, hloop, countKind, List.countP_append, hstatus, hclass, hextr, hexec]
        | raisedB m =>
          simp [htasks, hloop, countKind, List.countP_append, hstatus, hclass, hextr, hexec]
        | normal =>
          cases hsum : o.summarize with
          | cancel =>
            simp [htasks, hloop, hsum, countKind, List.countP_append, hstatus, hclass,
              hextr, hasst, hexec]
          | raised m =>
            simp [htasks, hloop, hsum, countKind, List.countP_append, hstatus, hclass,
              hextr, hasst, hexec]
          | ok s =>
            have ht := titleStep_count o.messageCount o.titleGen k htitle
            simp only [countKind] at ht
            by_cases htt : (titleStep o.messageCount o.titleGen).2 <;>
              simp [htasks, hloop, hsum, htt, countKind, List.countP_append, hstatus,
                hclass, hextr, hasst, hdone, hexec, ht]

/-- If the main stages do not return normally, no `done` event was emitted. -/
theorem mainBranch_done_of_not_normal (o : Oracle)
    (h : (mainBranch o).2.2 ≠ BodyExit.normal) :
    countKind "done" (mainBranch o).1 = 0 := by
  unfold mainBranch at *
  cases hcl : o.classify with
  | cancel => simp [countKind]
  | raised m => simp [countKind]
  | ok cats =>
    cases hex : o.extract with
    | cancel => simp [countKind]
    | raised m => simp [countKind]
    | ok reqs =>
      cases htasks : create_and_execute_tasks reqs with
      | error m => simp [htasks, countKind]
      | ok tasks =>
        have hexec := execTasks_count tasks.length o.runs "done" (by decide) (by decide)
          (by decide) (by decide) tasks 0
        rcases hloop : execTasks tasks.length o.runs tasks 0 with ⟨levs, lens, lexit⟩
        rw [hloop] at hexec
        simp only [countKind] at hexec
        simp only [hcl, hex, htasks, hloop] at h
        cases lexit with
        | cancelledB =>
          simp [htasks, hloop, countKind, List.countP_append, hexec]
        | raisedB m =>
          simp [htasks, hloop, countKind, List.countP_append, hexec]
        | normal =>
          cases hsum : o.summarize with
          | cancel => simp [htasks, hloop, hsum, countKind, List.countP_append, hexec]
          | raised m => simp [htasks, hloop, hsum, countKind, List.countP_append, hexec]
          | ok s =>
            by_cases htt : (titleStep o.messageCount o.titleGen).2
            · simp [htasks, hloop, hsum, htt, countKind, List.countP_append, hexec]
            · simp only [hsum] at h
              simp [htt] at h

/-- Kind-exclusion count for the clarification short-circuit. -/
theorem ambiguousBranch_count_excl (d : String) (o : Oracle) (k : String)
    (hasst : ("assistant" == k) = false)
    (htitle : ("title" == k) = false)
    (hdone : ("done" == k) = false) :
    countKind k (ambiguousBranch d o).1 = 0 := by
  unfold ambiguousBranch
  have ht := titleStep_count o.messageCount o.titleGen k htitle
  simp only [countKind] at ht
  by_cases htt : (titleStep o.messageCount o.titleGen).2 <;>
    simp [htt, countKind, List.countP_append, hasst, hdone, ht]

/-- Kind-exclusion count for the whole pipeline body. -/
theorem pipelineBody_count_excl (u : String) (o : Oracle) (k : String)
    (hstatus : ("status" == k) = false)
    (hdis : ("disambiguation" == k) = false)
    (hclass : ("classification" == k) = false)
    (hextr : ("extraction" == k) = false)
    (hts : ("task_success" == k) = false)
    (htk : ("task_skipped" == k) = false)
    (htf : ("task_failed" == k) = false)
    (hasst : ("assistant" == k) = false)
    (htitle : ("title" == k) = false)
    (hdone : ("done" == k) = false) :
    countKind k (pipelineBody u o).1 = 0 := by
  unfold pipelineBody
  cases hd : o.disamb with
  | cancel => simp [countKind, hstatus]
  | raised m => simp [countKind, hstatus]
  | ok d =>
    by_cases ha : is_ambiguous_input d
    · have hb := ambiguousBranch_count_excl d o k hasst htitle hdone
      simp only [countKind] at hb
      simp [ha, countKind, List.countP_append, hstatus, hdis, hb]
    · have hb := mainBranch_count_excl o k hstatus hclass hextr hts htk htf hasst htitle hdone
      simp only [countKind] at hb
      simp [ha, countKind, List.countP_append, hstatus, hdis, hb]

/-- A body that does not return normally has emitted no `done` event. -/
theorem pipelineBody_done_of_not_normal (u : String) (o : Oracle)
    (h : (pipelineBody u o).2.2 ≠ BodyExit.normal) :
    countKind "done" (pipelineBody u o).1 = 0 := by
  unfold pipelineBody at *
  cases hd : o.disamb with
  | cancel => simp [countKind]
  | raised m => simp [countKind]
  | ok d =>
    simp only [hd] at h
    by_cases ha : is_ambiguous_input d
    · by_cases htt : (titleStep o.messageCount o.titleGen).2
      · simp [ha, htt, ambiguousBranch, countKind, List.countP_append]
      · simp [ha, htt, ambiguousBranch] at h
    · simp only [ha, Bool.false_eq_true, if_false] at h ⊢
      have hm : (mainBranch o).2.2 ≠ BodyExit.normal := fun he => by simp [he] at h
      have hb := mainBranch_done_of_not_normal o hm
      simp only [countKind] at hb
      simp [countKind, List.countP_append, hb]

/-- C7: whenever a stage raises an ordinary exception, the top level catches it
once: the run ends in the errored state, the trace carries exactly one `error`
event (the last event, with the raised message) and no `done` event at all. -/
theorem pipeline_error_single_report (u : String) (o : Oracle) (m : String)
    (h : (pipelineBody u o).2.2 = BodyExit.raisedB m) :
    (runPipeline u o).outcome = Outcome.errored ∧
    countKind "error" (runPipeline u o).events = 1 ∧
    countKind "done" (runPipeline u o).events = 0 ∧
    (runPipeline u o).events.getLast? = Option.some ⟨"error", m⟩ := by
  have herr := pipelineBody_count_excl u o "error" (by decide) (by decide) (by decide)
    (by decide) (by decide) (by decide) (by decide) (by decide) (by decide) (by decide)
  have hdone := pipelineBody_done_of_not_normal u o (by simp [h])
  rcases hb : pipelineBody u o with ⟨evs, ens, ex⟩
  rw [hb] at h herr hdone
  simp only at h herr hdone
  subst h
  unfold runPipeline
  rw [hb]
  simp only [countKind] at herr hdone
  simp [countKind, List.countP_append, herr, hdone, List.getLast?_concat]

/-- C6: on cancellation, the handler appends the stopped-by-user transcript
entry, then emits `assistant` with that text, then `cancelled`, then the
terminal `done`, in that order (followed only by the optional metadata `title`
event); the whole trace carries exactly one `cancelled` and exactly one `done`
event, and the turn is no longer in the stream registry after the turn ends. -/
theorem pipeline_cancellation_handler (tid u : String) (reg : List String) (o : Oracle)
    (hreg : reg.Nodup) (hok : o.handlerThreadOk = true)
    (hc : (pipelineBody u o).2.2 = BodyExit.cancelledB) :
    (runPipeline u o).outcome = Outcome.cancelledOut ∧
    (runPipeline u o).entries = (pipelineBody u o).2.1 ++
      [⟨"agent", "Summarization Agent: Generation stopped by user"⟩] ∧
    (runPipeline u o).events = (pipelineBody u o).1 ++
      ([⟨"assistant", "Generation stopped by user"⟩,
        ⟨"cancelled", "Generation stopped by user"⟩,
        ⟨"done", "Cancelled"⟩] ++ (titleStep o.messageCount o.titleGen).1) ∧
    countKind "cancelled" (runPipeline u o).events = 1 ∧
    countKind "done" (runPipeline u o).events = 1 ∧
    tid ∉ (streamTurn tid reg u o).2 := by
  have hcanc := pipelineBody_count_excl u o "cancelled" (by decide) (by decide) (by decide)
    (by decide) (by decide) (by decide) (by decide) (by decide) (by decide) (by decide)
  have hdone := pipelineBody_done_of_not_normal u o (by simp [hc])
  have htc := titleStep_count o.messageCount o.titleGen "cancelled" (by decide)
  have htd := titleStep_count o.messageCount o.titleGen "done" (by decide)
  have hregout : tid ∉ (if tid ∈ reg then reg else tid :: reg).erase tid := by
    have hnodup : (if tid ∈ reg then reg else tid :: reg).Nodup := by
      by_cases hm : tid ∈ reg <;> simp [hm, hreg]
    intro hmem
    rw [List.Nodup.mem_erase_iff hnodup] at hmem
    exact hmem.1 rfl
  rcases hb : pipelineBody u o with ⟨evs, ens, ex⟩
  rw [hb] at hc hcanc hdone
  simp only at hc hcanc hdone
  subst hc
  unfold runPipeline streamTurn cancelHandler
  rw [hb]
  simp only [countKind] at hcanc hdone htc htd
  simp [hok, countKind, List.countP_append, hcanc, hdone, htc, htd, hregout]

/-- C4: a disambiguation result carrying the reserved marker short-circuits the
turn — the run finishes normally having emitted exactly one `assistant` and one
`done` event, no `classification` / `extraction` / `task_*` event at all, and
the formatted clarification is persisted to the transcript. -/
theorem pipeline_clarification_short_circuit (u d : String) (o : Oracle)
    (h1 : o.disamb = ExtResult.ok d) (h2 : is_ambiguous_input d = true)
    (h3 : o.titleGen ≠ ExtResult.cancel) :
    (runPipeline u o).outcome = Outcome.finished ∧
    countKind "assistant" (runPipeline u o).events = 1 ∧
    countKind "done" (runPipeline u o).events = 1 ∧
    countKind "classification" (runPipeline u o).events = 0 ∧
    countKind "extraction" (runPipeline u o).events = 0 ∧
    countKind "task_success" (runPipeline u o).events = 0 ∧
    countKind "task_skipped" (runPipeline u o).events = 0 ∧
    countKind "task_failed" (runPipeline u o).events = 0 ∧
    Entry.mk "agent" (handle_ambiguous_input d) ∈ (runPipeline u o).entries := by
  have htt : (titleStep o.messageCount o.titleGen).2 = false := by
    unfold titleStep
    by_cases hmc : o.messageCount == 2
    · cases htg : o.titleGen with
      | ok t => simp [hmc, htg]
      | cancel => exact absurd htg h3
      | raised m => simp [hmc, htg]
    · simp [hmc]
  have hta := titleStep_count o.messageCount o.titleGen "assistant" (by decide)
  have htdn := titleStep_count o.messageCount o.titleGen "done" (by decide)
  have htcl := titleStep_count o.messageCount o.titleGen "classification" (by decide)
  have htex := titleStep_count o.messageCount o.titleGen "extraction" (by decide)
  have hts := titleStep_count o.messageCount o.titleGen "task_success" (by decide)
  have htk := titleStep_count o.messageCount o.titleGen "task_skipped" (by decide)
  have htf := titleStep_count o.messageCount o.titleGen "task_failed" (by decide)
  simp only [countKind] at hta htdn htcl htex hts htk htf
  unfold runPipeline pipelineBody ambiguousBranch
  rw [h1]
  simp [h2, htt, countKind, List.countP_append, hta, htdn, htcl, htex, hts, htk, htf]

theorem pipeline_clarification_short_circuit_witness :
    (runPipeline "mute track" oracleClarify).outcome = Outcome.finished ∧
    countKind "assistant" (runPipeline "mute track" oracleClarify).events = 1 ∧
    countKind "done" (runPipeline "mute track" oracleClarify).events = 1 ∧
    countKind "classification" (runPipeline "mute track" oracleClarify).events = 0 := by
  have h := pipeline_clarification_short_circuit "mute track"
    "NEED_MORE_CONTEXT: Which track should be muted? Original: mute track"
    oracleClarify rfl (by decide) (by decide)
  exact ⟨h.1, h.2.1, h.2.2.1, h.2.2.2.1⟩

theorem pipeline_cancellation_handler_witness :
    (runPipeline "mute track 2" oracleCancelled).outcome = Outcome.cancelledOut ∧
    countKind "cancelled" (runPipeline "mute track 2" oracleCancelled).events = 1 ∧
    countKind "done" (runPipeline "mute track 2" oracleCancelled).events = 1 ∧
    "t1" ∉ (streamTurn "t1" ["t1"] "mute track 2" oracleCancelled).2 := by
  have h := pipeline_cancellation_handler "t1" "mute track 2" ["t1"] oracleCancelled
    (by decide) rfl (by decide)
  exact ⟨h.1, h.2.2.2.1, h.2.2.2.2.1, h.2.2.2.2.2⟩

theorem pipeline_error_single_report_witness :
    (runPipeline "hello" oracleErrored).outcome = Outcome.errored ∧
    countKind "error" (runPipeline "hello" oracleErrored).events = 1 ∧
    countKind "done" (runPipeline "hello" oracleErrored).events = 0 := by
  have h := pipeline_error_single_report "hello" oracleErrored "LLM backend unreachable" rfl
  exact ⟨h.1, h.2.1, h.2.2.1⟩
